import Mathlib

/-!
Shallow embedding of the Expert Evaluator repository: the serverless
scoring functions, the client assessment store, the face-verification
proctoring loop, the question-page event handlers, the ZIP upload
handler, and the AI-response parse stages of the serverless functions.
Each definition is translated from the corresponding source function;
JavaScript numbers are modelled as Nat / Int / Rat, JavaScript strings
as String, and fallible platform calls (JSON.parse, zip loading) by
their result.
-/

namespace ExpertEval

/-! ### Scoring (supabase/functions/evaluate-assessment/index.ts and the
unnamed evaluate function, part_007) -/

/-- One answered question as consumed by the evaluation functions:
the submitted answer (absent when unanswered, matching a JS undefined or
null field) and the expected answer. Both serverless evaluators compare
the two strings with strict equality. -/
structure AnswerEntry where
  userAnswer : Option String
  correctAnswer : String
deriving DecidableEq, Repr

/-- Number of entries whose submitted answer equals the expected answer:
the forEach counting loop of part_007 and the filter-length expression of
evaluate-assessment/index.ts. -/
def correctCount (answers : List AnswerEntry) : ℕ :=
  answers.countP fun a => a.userAnswer == some a.correctAnswer

/-- JavaScript Math.round on a finite number: floor of x + 1/2. -/
def jsRound (x : ℚ) : ℤ :=
  ⌊x + 1 / 2⌋

/-- The score computation of both evaluators:
Math.round((correctAnswers / answers.length) * 100). When the answer
list is empty, JavaScript evaluates 0 / 0 to NaN and Math.round(NaN) is
NaN; the NaN outcome is modelled as none. -/
def totalScore (answers : List AnswerEntry) : Option ℤ :=
  if answers.length = 0 then none
  else some (jsRound (((correctCount answers : ℚ) / (answers.length : ℚ)) * 100))

/-! ### Client assessment store (unnamed part_000, the store variant with
the face embedding field; src/stores/assessmentStore.ts is identical
except that it lacks faceEmbedding) -/

/-- Camera and microphone permission flags of the store. -/
structure Permissions where
  camera : Bool
  microphone : Bool
deriving DecidableEq, Repr

/-- An extracted project file as kept by the store. -/
structure UploadedFile where
  name : String
  path : String
  size : ℕ
  content : Option String
deriving DecidableEq, Repr

/-- A generated multiple-choice question as kept by the store. -/
structure Question where
  id : String
  questionNumber : ℕ
  questionText : String
  options : List String
  correctAnswer : String
  userAnswer : Option String
deriving DecidableEq, Repr

/-- The zustand assessment store state (part_000). -/
structure AssessmentState where
  currentAssessmentId : Option String
  uploadedFiles : List UploadedFile
  permissions : Permissions
  faceEmbedding : Option (List ℚ)
  questions : List Question
  currentQuestionIndex : ℕ
  timeRemaining : ℕ
  isAssessmentComplete : Bool
deriving DecidableEq, Repr

/-- The initial store state written in the create call of part_000. -/
def initialAssessmentState : AssessmentState where
  currentAssessmentId := none
  uploadedFiles := []
  permissions := ⟨false, false⟩
  faceEmbedding := none
  questions := []
  currentQuestionIndex := 0
  timeRemaining := 30
  isAssessmentComplete := false

/-- setUserAnswer of the store: maps over the questions, replacing the
question whose position equals questionIndex by a copy with userAnswer
set, leaving every other question as is. Mirrors
questions.map((q, i) => i === questionIndex ? spread-with-userAnswer : q).
All other store fields are untouched. -/
def setUserAnswer (s : AssessmentState) (questionIndex : ℕ) (answer : String) :
    AssessmentState :=
  { s with
    questions := s.questions.mapIdx fun i q =>
      if i = questionIndex then { q with userAnswer := some answer } else q }

/-- resetAssessment of the store: a zustand set with a partial object,
which merges into the existing state. The object lists
currentAssessmentId, uploadedFiles, faceEmbedding, questions,
currentQuestionIndex, timeRemaining and isAssessmentComplete; the
permissions field is absent from the object, so the merge keeps the
previous permissions value. -/
def resetAssessment (s : AssessmentState) : AssessmentState :=
  { s with
    currentAssessmentId := none
    uploadedFiles := []
    faceEmbedding := none
    questions := []
    currentQuestionIndex := 0
    timeRemaining := 30
    isAssessmentComplete := false }

/-! ### Face verification / proctoring loop (unnamed part_005,
FaceVerification component) -/

/-- Violation severity as passed to onViolation and logged. -/
inductive Severity where
  | warning
  | critical
deriving DecidableEq, Repr

/-- Verification status values of the FaceVerification component. -/
inductive VerificationStatus where
  | verifying
  | verified
  | mismatch
  | multiple_faces
  | no_face
deriving DecidableEq, Repr

/-- One row inserted into the proctoring_logs table (the fields the
component controls: event_type and severity). -/
structure LogEntry where
  eventType : String
  severity : Severity
deriving DecidableEq, Repr

/-- The mutable state of the FaceVerification component:
lastViolationRef (a millisecond timestamp, 0 initially), the
violationCount state, the verificationStatus state, plus the externally
observable effect streams: rows inserted into proctoring_logs and
severities dispatched through the onViolation callback. -/
structure ProctorState where
  lastViolation : ℕ
  violationCount : ℕ
  verificationStatus : VerificationStatus
  logs : List LogEntry
  dispatches : List Severity
deriving DecidableEq, Repr

/-- handleViolation of part_005: if fewer than 5000 ms have passed since
lastViolationRef, return immediately (no log insert, no count update, no
onViolation dispatch). Otherwise record the time, insert a log row,
increment the violation count, and dispatch the severity through
onViolation (both the critical and the warning branch call onViolation
with the given severity). Nat subtraction truncates at zero, which
matches the JS comparison: a negative difference is also below 5000. -/
def handleViolation (eventType : String) (severity : Severity) (now : ℕ)
    (s : ProctorState) : ProctorState :=
  if now - s.lastViolation < 5000 then s
  else
    { s with
      lastViolation := now
      logs := s.logs ++ [⟨eventType, severity⟩]
      violationCount := s.violationCount + 1
      dispatches := s.dispatches ++ [severity] }

/-- Squared Euclidean distance between two descriptors. The source
compares faceapi.euclideanDistance(registered, current) < 0.6; since
both sides are nonnegative this is equivalent to comparing the squared
distance against 0.6 squared = 9/25, which keeps the model inside ℚ. -/
def euclideanDistanceSq (a b : List ℚ) : ℚ :=
  (List.zipWith (fun x y => (x - y) ^ 2) a b).sum

/-- One tick of verifyFace in part_005, given the list of detected face
descriptors. Returns the updated component state together with the
argument of the handleViolation call the branch makes (none in the
verified branch, which raises no violation):
zero detections raises (no_face, warning) and then sets the status to
no_face; more than one detection raises (multiple_faces, critical) and
sets the status to multiple_faces; exactly one detection compares the
descriptor with the registered embedding against the 0.6 threshold,
either setting the status to verified and clearing the violation count,
or raising (face_mismatch, critical) and setting the status to
mismatch. -/
def verifyFaceStep (registeredEmbedding : List ℚ) (dets : List (List ℚ))
    (now : ℕ) (s : ProctorState) : ProctorState × Option (String × Severity) :=
  match dets with
  | [] =>
    let s1 := handleViolation "no_face" .warning now s
    ({ s1 with verificationStatus := .no_face }, some ("no_face", .warning))
  | [d] =>
    if euclideanDistanceSq registeredEmbedding d < 9 / 25 then
      ({ s with verificationStatus := .verified, violationCount := 0 }, none)
    else
      let s1 := handleViolation "face_mismatch" .critical now s
      ({ s1 with verificationStatus := .mismatch }, some ("face_mismatch", .critical))
  | _ :: _ :: _ =>
    let s1 := handleViolation "multiple_faces" .critical now s
    ({ s1 with verificationStatus := .multiple_faces }, some ("multiple_faces", .critical))

/-! ### Question page (src/pages/Questions.tsx) -/

/-- Local component state of the Questions page, together with the
assessment store it drives and a completed flag modelling the
navigation to the assessment-complete page. -/
structure QuestionsState where
  selectedAnswer : String
  isMonitoringValid : Bool
  assessmentPaused : Bool
  violations : List String
  store : AssessmentState
  completed : Bool
deriving DecidableEq, Repr

/-- handleAnswerSelect of Questions.tsx: when monitoring is invalid the
handler shows an error toast and returns without selecting; otherwise it
records the selected answer. -/
def handleAnswerSelect (answer : String) (q : QuestionsState) : QuestionsState :=
  if q.isMonitoringValid = false then q
  else { q with selectedAnswer := answer }

/-- handleNextQuestion of Questions.tsx: if an answer is selected
(non-empty string, JS truthiness) it is written into the store at the
current index; then, independently of any selection, either the index
advances with the timer reset to 30 and the selection cleared, or, on
the last question, the page navigates to assessment-complete. The JS
guard currentQuestionIndex < questions.length - 1 on an empty list
compares against -1 and is false; Nat subtraction gives the same
outcome. -/
def handleNextQuestion (q : QuestionsState) : QuestionsState :=
  let st :=
    if q.selectedAnswer = "" then q.store
    else setUserAnswer q.store q.store.currentQuestionIndex q.selectedAnswer
  if q.store.currentQuestionIndex < q.store.questions.length - 1 then
    { q with
      store := { st with
        currentQuestionIndex := q.store.currentQuestionIndex + 1
        timeRemaining := 30 }
      selectedAnswer := "" }
  else
    { q with store := st, completed := true }

/-- handleProctorViolation of Questions.tsx: a critical severity pauses
the assessment and invalidates monitoring; a warning appends a single
Proctoring warning entry to the violations list if not already there. -/
def handleProctorViolation (severity : Severity) (q : QuestionsState) :
    QuestionsState :=
  match severity with
  | .critical => { q with assessmentPaused := true, isMonitoringValid := false }
  | .warning =>
    if "Proctoring warning" ∈ q.violations then q
    else { q with violations := q.violations ++ ["Proctoring warning"] }

/-- User-visible events on the question page: selecting an option,
clicking the next button, one tick of the one-second countdown effect, a
proctoring violation callback, and the resume button of the paused
overlay. -/
inductive QEvent where
  | selectOption (answer : String)
  | clickNext
  | tick
  | proctorViolation (severity : Severity)
  | resumeClick
deriving DecidableEq, Repr

/-- One step of the question page. The next button carries
disabled=(not selectedAnswer), so a click without a selection is a
no-op; the countdown effect decrements a positive timer and calls
handleNextQuestion when the timer is at zero; the resume button clears
the paused flag and revalidates monitoring. -/
def stepQuestions (e : QEvent) (q : QuestionsState) : QuestionsState :=
  match e with
  | .selectOption a => handleAnswerSelect a q
  | .clickNext => if q.selectedAnswer = "" then q else handleNextQuestion q
  | .tick =>
    if 0 < q.store.timeRemaining then
      { q with store := { q.store with timeRemaining := q.store.timeRemaining - 1 } }
    else handleNextQuestion q
  | .proctorViolation sev => handleProctorViolation sev q
  | .resumeClick => { q with assessmentPaused := false, isMonitoringValid := true }

/-! ### File upload (src/pages/FileUpload.tsx) -/

/-- One entry of the loaded ZIP archive, as exposed by the zip library:
its path, whether it is a directory entry, and its decoded text. -/
structure ZipEntry where
  path : String
  dir : Bool
  text : String
deriving DecidableEq, Repr

/-- JavaScript String.prototype.endsWith, modelled on the character
lists underlying the strings. -/
def jsEndsWith (s suffix : String) : Bool :=
  suffix.data.isSuffixOf s.data

/-- JavaScript String.prototype.includes (substring containment),
modelled on the character lists underlying the strings. -/
def jsIncludes (s pat : String) : Bool :=
  decide (pat.data <:+: s.data)

/-- The extraction loop of handleFileUpload: keep every entry that is
not a directory and whose path contains neither node_modules nor .git,
storing the path as name and path, the full text length as size, and
the first 500 characters of the text as content preview. The JS
content.substring(0, 500) is modelled by taking the first 500
characters of the underlying character list. -/
def extractFiles (entries : List ZipEntry) : List UploadedFile :=
  entries.filterMap fun e =>
    if !e.dir && !(jsIncludes e.path "node_modules") && !(jsIncludes e.path ".git") then
      some ⟨e.path, e.path, e.text.length, some (String.mk (e.text.data.take 500))⟩
    else none

/-- Outcome of handleFileUpload: the uploaded-files list the store holds
afterwards, whether the zip load (extraction) was attempted, and the
error toast message if any. -/
structure UploadOutcome where
  files : List UploadedFile
  extractionAttempted : Bool
  errorMsg : Option String
deriving DecidableEq, Repr

/-- handleFileUpload of FileUpload.tsx: a file whose name does not end
in .zip is rejected with an error toast before the zip library is
invoked, leaving the stored list untouched; otherwise the archive is
loaded (its result modelled by an Option), a load failure reports an
extraction error and keeps the stored list, and a successful load
replaces the stored list with the extracted files. -/
def handleFileUpload (fileName : String) (load : Option (List ZipEntry))
    (prev : List UploadedFile) : UploadOutcome :=
  if !(jsEndsWith fileName ".zip") then
    ⟨prev, false, some "Please upload a ZIP file"⟩
  else
    match load with
    | none => ⟨prev, true, some "Failed to extract ZIP file"⟩
    | some entries => ⟨extractFiles entries, true, none⟩

/-! ### AI-response parse stages of the serverless functions -/

/-- Shape of the plagiarism object the unnamed evaluate function
(part_007) reads from the AI response. -/
structure PlagiarismData where
  plagiarismScore : ℤ
  summary : String
deriving DecidableEq, Repr

/-- The hardcoded fallback of the part_007 plagiarism parse catch. -/
def plagiarismFallback : PlagiarismData :=
  ⟨85, "Analysis completed successfully."⟩

/-- The plagiarism parse stage of part_007: the code-block extraction
and JSON.parse are platform calls whose joint outcome is modelled by the
argument; a parse failure falls into the catch, which substitutes the
hardcoded fallback object. No failure escapes this stage. -/
def parsePlagiarismData (parsed : Option PlagiarismData) : PlagiarismData :=
  match parsed with
  | some d => d
  | none => plagiarismFallback

/-- Shape of the codeQualityAnalysis object of
evaluate-assessment/index.ts. -/
structure CodeQualityAnalysis where
  architecture : String
  codeOrganization : String
  bestPractices : String
  overallRating : ℤ
deriving DecidableEq, Repr

/-- Shape of the analysis object evaluate-assessment/index.ts reads
from the AI response. -/
structure AnalysisData where
  plagiarismScore : ℤ
  codeQualityAnalysis : CodeQualityAnalysis
  securitySuggestions : List String
  optimizationSuggestions : List String
  overallAssessment : String
deriving DecidableEq, Repr

/-- The hardcoded fallback object of the analysis parse catch in
evaluate-assessment/index.ts. -/
def analysisFallback : AnalysisData where
  plagiarismScore := 15
  codeQualityAnalysis :=
    ⟨"Clean modular structure with good separation of concerns.",
      "Well-organized with clear component hierarchy.",
      "Follows React best practices and modern patterns.", 8⟩
  securitySuggestions :=
    ["Implement input validation on all user inputs",
      "Add rate limiting to API endpoints",
      "Use environment variables for sensitive data"]
  optimizationSuggestions :=
    ["Implement code splitting for better performance",
      "Add memoization for expensive computations",
      "Optimize bundle size by removing unused dependencies"]
  overallAssessment := "Good overall performance with room for optimization."

/-- The analysis parse stage of evaluate-assessment/index.ts: both the
no-JSON-found throw and a JSON.parse failure land in the catch, which
substitutes the hardcoded fallback. No failure escapes this stage. -/
def parseAnalysis (parsed : Option AnalysisData) : AnalysisData :=
  match parsed with
  | some a => a
  | none => analysisFallback

/-- Shape of one generated question as read by the generate-questions
function. -/
structure GeneratedQuestion where
  questionText : String
  options : List String
  correctAnswer : String
deriving DecidableEq, Repr

/-- The parse stage of the generate-questions function: on a JSON.parse
failure the catch rethrows an Invalid AI response format error, which
the outer handler turns into an HTTP 500 error response. Unlike the two
evaluate stages, this stage surfaces the failure. -/
def parseQuestionsData (parsed : Option (List GeneratedQuestion)) :
    Except String (List GeneratedQuestion) :=
  match parsed with
  | some qs => .ok qs
  | none => .error "Invalid AI response format"

/-! ### Concrete fixtures used by counterexamples and witnesses -/

/-- Initial state of the FaceVerification component: lastViolationRef
starts at 0, no violations counted, status verifying, nothing logged or
dispatched yet. -/
def initialProctorState : ProctorState :=
  ⟨0, 0, .verifying, [], []⟩

/-- A store state in which the user has granted both permissions. -/
def grantedPermissionsState : AssessmentState :=
  { initialAssessmentState with permissions := ⟨true, true⟩ }

/-- A store state holding two generated questions. -/
def twoQuestionStore : AssessmentState :=
  { initialAssessmentState with
    questions := [⟨"q1", 1, "T1", ["A", "B"], "A", none⟩,
      ⟨"q2", 2, "T2", ["C", "D"], "C", none⟩] }

/-- Question-page state on the first of two questions, with no option
selected and the countdown at zero. -/
def timedOutQuestionsState : QuestionsState :=
  { selectedAnswer := ""
    isMonitoringValid := true
    assessmentPaused := false
    violations := []
    store := { twoQuestionStore with timeRemaining := 0 }
    completed := false }

/-- Question-page state paused by a critical proctoring violation. -/
def pausedQuestionsState : QuestionsState :=
  { timedOutQuestionsState with isMonitoringValid := false, assessmentPaused := true }

/-- A small ZIP archive: a directory entry, a source file, and a file
under node_modules. -/
def sampleEntries : List ZipEntry :=
  [⟨"d/", true, ""⟩, ⟨"a.ts", false, "hi"⟩, ⟨"node_modules", false, "m"⟩]

/-! ### Claim theorems -/

/-- C1 counterexample: on the empty answer list the score computation
divides 0 by 0, which is NaN in JavaScript, and Math.round(NaN) is NaN;
the computed score is therefore not an integer in [0,100], contradicting
the claim for the empty list. -/
theorem totalScore_empty_eq_none : totalScore [] = none := rfl

/-- C1 amended: for every NON-EMPTY list of answered questions the
computed score equals round(100 * correct_count / total_count) and is an
integer in [0,100]; for the empty list the computation yields NaN
instead of an integer. -/
theorem totalScore_round_and_bounds (answers : List AnswerEntry)
    (h : answers ≠ []) :
    ∃ z : ℤ, totalScore answers = some z ∧
      z = jsRound (100 * ((correctCount answers : ℚ) / (answers.length : ℚ))) ∧
      0 ≤ z ∧ z ≤ 100 := by
  have hn : answers.length ≠ 0 := by
    intro h0
    exact h (List.eq_nil_of_length_eq_zero h0)
  have hnpos : (0 : ℚ) < (answers.length : ℚ) := by
    exact_mod_cast Nat.pos_of_ne_zero hn
  have hc : correctCount answers ≤ answers.length := List.countP_le_length _
  have hcq : ((correctCount answers : ℚ) / (answers.length : ℚ)) ≤ 1 := by
    rw [div_le_one hnpos]
    exact_mod_cast hc
  have hx0 : (0 : ℚ) ≤ ((correctCount answers : ℚ) / (answers.length : ℚ)) * 100 := by
    positivity
  have hx100 : ((correctCount answers : ℚ) / (answers.length : ℚ)) * 100 ≤ 100 := by
    nlinarith
  refine ⟨jsRound (((correctCount answers : ℚ) / (answers.length : ℚ)) * 100), ?_, ?_, ?_, ?_⟩
  · simp [totalScore, hn]
  · rw [mul_comm]
  · unfold jsRound
    apply Int.le_floor.mpr
    push_cast
    linarith
  · unfold jsRound
    have h1 : ⌊((correctCount answers : ℚ) / (answers.length : ℚ)) * 100 + 1 / 2⌋ ≤
        ⌊(201 : ℚ) / 2⌋ := Int.floor_mono (by linarith)
    have h2 : ⌊(201 : ℚ) / 2⌋ = 100 := by norm_num
    omega

/-- Witness for C1 amended: a two-entry list with one correct answer
scores 50. -/
theorem totalScore_round_and_bounds_witness : ∃ z : ℤ,
    totalScore [⟨some "A", "A"⟩, ⟨none, "B"⟩] = some z ∧
      z = jsRound (100 * ((correctCount [⟨some "A", "A"⟩, ⟨none, "B"⟩] : ℚ) /
        ((List.length [(⟨some "A", "A"⟩ : AnswerEntry), ⟨none, "B"⟩] : ℚ)))) ∧
      0 ≤ z ∧ z ≤ 100 :=
  totalScore_round_and_bounds [⟨some "A", "A"⟩, ⟨none, "B"⟩] (by decide)

/-- C2: a violation arriving within 5000 ms of the last processed
violation is suppressed entirely, whatever its event type and severity:
the component state is unchanged, so no proctoring log row is inserted
and no onViolation callback is dispatched. Consequently two violations
less than 5 seconds apart, the first of them outside the cool-down of
anything earlier, produce exactly one new log row and one dispatch. -/
theorem violation_cooldown_suppresses (s : ProctorState) :
    (∀ (eventType : String) (severity : Severity) (now : ℕ),
      now - s.lastViolation < 5000 →
        handleViolation eventType severity now s = s) ∧
    (∀ (et1 et2 : String) (sev1 sev2 : Severity) (t1 t2 : ℕ),
      5000 ≤ t1 - s.lastViolation → t2 - t1 < 5000 →
        (handleViolation et2 sev2 t2 (handleViolation et1 sev1 t1 s)).logs =
          s.logs ++ [⟨et1, sev1⟩] ∧
        (handleViolation et2 sev2 t2 (handleViolation et1 sev1 t1 s)).dispatches =
          s.dispatches ++ [sev1]) := by
  constructor
  · intro et sev now h
    simp [handleViolation, h]
  · intro et1 et2 sev1 sev2 t1 t2 h1 h2
    have hn1 : ¬ (t1 - s.lastViolation < 5000) := by omega
    simp only [handleViolation, if_neg hn1]
    simp [h2]

/-- Witness for C2: from the initial state, a violation at 100 ms is
inside the initial cool-down and changes nothing, and violations of two
different critical types at 6000 ms and 8000 ms log only the first. -/
theorem violation_cooldown_suppresses_witness :
    (handleViolation "no_face" .warning 100 initialProctorState = initialProctorState) ∧
    ((handleViolation "face_mismatch" .critical 8000
        (handleViolation "multiple_faces" .critical 6000 initialProctorState)).logs =
      initialProctorState.logs ++ [⟨"multiple_faces", .critical⟩]) :=
  ⟨(violation_cooldown_suppresses initialProctorState).1 "no_face" .warning 100 (by decide),
    ((violation_cooldown_suppresses initialProctorState).2 "multiple_faces" "face_mismatch"
      .critical .critical 6000 8000 (by decide) (by decide)).1⟩

/-- C3: on any tick, whatever the prior component state, zero detected
faces sets the status to no_face and raises a (no_face, warning)
violation, and more than one detected face sets the status to
multiple_faces and raises a (multiple_faces, critical) violation. -/
theorem verifyFace_counts_determine_status (registeredEmbedding : List ℚ)
    (dets : List (List ℚ)) (now : ℕ) (s : ProctorState) :
    (dets.length = 0 →
      (verifyFaceStep registeredEmbedding dets now s).1.verificationStatus = .no_face ∧
      (verifyFaceStep registeredEmbedding dets now s).2 = some ("no_face", .warning)) ∧
    (1 < dets.length →
      (verifyFaceStep registeredEmbedding dets now s).1.verificationStatus = .multiple_faces ∧
      (verifyFaceStep registeredEmbedding dets now s).2 = some ("multiple_faces", .critical)) := by
  constructor
  · intro h0
    have : dets = [] := List.eq_nil_of_length_eq_zero h0
    subst this
    exact ⟨rfl, rfl⟩
  · intro h1
    match dets with
    | [] => simp at h1
    | [d] => simp at h1
    | a :: b :: rest => exact ⟨rfl, rfl⟩

/-- Witness for C3: zero detections and two detections from the initial
state. -/
theorem verifyFace_counts_determine_status_witness :
    ((verifyFaceStep [] [] 0 initialProctorState).1.verificationStatus = .no_face ∧
      (verifyFaceStep [] [] 0 initialProctorState).2 = some ("no_face", .warning)) ∧
    ((verifyFaceStep [] [[], []] 0 initialProctorState).1.verificationStatus = .multiple_faces ∧
      (verifyFaceStep [] [[], []] 0 initialProctorState).2 =
        some ("multiple_faces", .critical)) :=
  ⟨(verifyFace_counts_determine_status [] [] 0 initialProctorState).1 (by decide),
    (verifyFace_counts_determine_status [] [[], []] 0 initialProctorState).2 (by decide)⟩

/-- C4: on a tick with exactly one detected face, if the Euclidean
distance between the current descriptor and the registered one is
strictly below 0.6 (equivalently, the squared distance is below 9/25)
the status becomes verified and the violation count is reset to 0 with
no violation raised; otherwise the status becomes mismatch and a
(face_mismatch, critical) violation is raised. -/
theorem verifyFace_single_face_branch (registeredEmbedding d : List ℚ)
    (now : ℕ) (s : ProctorState) :
    (euclideanDistanceSq registeredEmbedding d < 9 / 25 →
      verifyFaceStep registeredEmbedding [d] now s =
        ({ s with verificationStatus := .verified, violationCount := 0 }, none)) ∧
    (¬ euclideanDistanceSq registeredEmbedding d < 9 / 25 →
      (verifyFaceStep registeredEmbedding [d] now s).1.verificationStatus = .mismatch ∧
      (verifyFaceStep registeredEmbedding [d] now s).2 =
        some ("face_mismatch", .critical)) := by
  constructor
  · intro h
    simp [verifyFaceStep, h]
  · intro h
    simp [verifyFaceStep, h]

/-- Witness for C4: a matching descriptor (distance 0) verifies and
clears the count; a distant descriptor (distance 1) mismatches. -/
theorem verifyFace_single_face_branch_witness :
    (verifyFaceStep [0] [[0]] 0 initialProctorState =
      ({ initialProctorState with verificationStatus := .verified, violationCount := 0 },
        none)) ∧
    ((verifyFaceStep [0] [[1]] 0 initialProctorState).1.verificationStatus = .mismatch ∧
      (verifyFaceStep [0] [[1]] 0 initialProctorState).2 =
        some ("face_mismatch", .critical)) :=
  ⟨(verifyFace_single_face_branch [0] [0] 0 initialProctorState).1
      (by norm_num [euclideanDistanceSq]),
    (verifyFace_single_face_branch [0] [1] 0 initialProctorState).2
      (by norm_num [euclideanDistanceSq])⟩

/-- C5 counterexample: resetAssessment is a zustand merge that omits the
permissions field, so resetting a store whose camera permission is true
leaves it true, contradicting the claim that camera/microphone
permissions become false. -/
theorem resetAssessment_retains_permissions_cex :
    ¬ ((resetAssessment grantedPermissionsState).permissions.camera = false) := by
  decide

/-- C5 amended: resetAssessment returns every field to its documented
initial default (assessment id null, uploaded files empty, face
embedding null, questions empty, current index 0, time remaining 30,
completion flag false) EXCEPT the permissions field, which is absent
from the merged object and therefore retains its previous value. -/
theorem resetAssessment_resets_except_permissions (s : AssessmentState) :
    resetAssessment s =
      { currentAssessmentId := none
        uploadedFiles := []
        permissions := s.permissions
        faceEmbedding := none
        questions := []
        currentQuestionIndex := 0
        timeRemaining := 30
        isAssessmentComplete := false } := rfl

/-- C6 counterexample: with no option selected and the countdown at
zero, the countdown effect calls handleNextQuestion, which advances the
question index anyway; the user is moved past the question screen
without a selected option. -/
theorem timeout_advances_without_selection_cex :
    timedOutQuestionsState.selectedAnswer = "" ∧
    (stepQuestions .tick timedOutQuestionsState).store.currentQuestionIndex =
      timedOutQuestionsState.store.currentQuestionIndex + 1 := by
  constructor
  · rfl
  · decide

/-- C6 amended: the next button cannot advance without a selected option
(it is disabled, so clicking it is a no-op), and no option can be
selected while monitoring is invalid after a critical proctoring
violation; however, the one-second countdown reaching zero invokes
handleNextQuestion regardless of any selection, so the no-advance
guarantee does not extend to the timer path. -/
theorem question_page_guards (q : QuestionsState) (a : String) :
    (q.isMonitoringValid = false → handleAnswerSelect a q = q) ∧
    (q.selectedAnswer = "" → stepQuestions .clickNext q = q) ∧
    (q.store.timeRemaining = 0 → stepQuestions .tick q = handleNextQuestion q) := by
  refine ⟨?_, ?_, ?_⟩
  · intro h
    simp [handleAnswerSelect, h]
  · intro h
    simp [stepQuestions, h]
  · intro h
    simp [stepQuestions, h]

/-- Witness for C6 amended: in the paused state a selection attempt and
a next click change nothing, and the tick at zero runs
handleNextQuestion. -/
theorem question_page_guards_witness :
    (handleAnswerSelect "A" pausedQuestionsState = pausedQuestionsState) ∧
    (stepQuestions .clickNext pausedQuestionsState = pausedQuestionsState) ∧
    (stepQuestions .tick pausedQuestionsState = handleNextQuestion pausedQuestionsState) :=
  ⟨(question_page_guards pausedQuestionsState "A").1 (by decide),
    (question_page_guards pausedQuestionsState "A").2.1 (by decide),
    (question_page_guards pausedQuestionsState "A").2.2 (by decide)⟩

/-- C7 counterexample: in the generate-questions serverless function the
parse-failure branch does not fall back: it raises an Invalid AI
response format error that the handler returns as an HTTP 500, so the
claim fails for that function. -/
theorem generate_questions_parse_failure_errors :
    parseQuestionsData none = .error "Invalid AI response format" := rfl

/-- C7 amended: in the two evaluate-assessment functions a parse failure
of the AI-generated JSON falls back to the hardcoded default payload and
the stage completes successfully, while the generate-questions function
surfaces a parse failure as an error instead of falling back. -/
theorem evaluate_parse_fallbacks :
    (∀ d, parsePlagiarismData (some d) = d) ∧
    parsePlagiarismData none = plagiarismFallback ∧
    (∀ a, parseAnalysis (some a) = a) ∧
    parseAnalysis none = analysisFallback ∧
    (∀ qs, parseQuestionsData (some qs) = .ok qs) :=
  ⟨fun _ => rfl, rfl, fun _ => rfl, rfl, fun _ => rfl⟩

/-- C8: an uploaded file whose name does not end in .zip is rejected
with the upload error message before any extraction is attempted, and
the stored uploaded-files list is unchanged. -/
theorem handleFileUpload_rejects_non_zip (fileName : String)
    (load : Option (List ZipEntry)) (prev : List UploadedFile)
    (h : jsEndsWith fileName ".zip" = false) :
    handleFileUpload fileName load prev =
      ⟨prev, false, some "Please upload a ZIP file"⟩ := by
  simp [handleFileUpload, h]

/-- Witness for C8: a .txt file is rejected without extraction. -/
theorem handleFileUpload_rejects_non_zip_witness :
    handleFileUpload "project.txt" (some [⟨"a.ts", false, "x"⟩]) [] =
      ⟨[], false, some "Please upload a ZIP file"⟩ :=
  handleFileUpload_rejects_non_zip "project.txt" (some [⟨"a.ts", false, "x"⟩]) [] (by decide)

/-- C9: setUserAnswer rewrites only the userAnswer of the question at
the given index; every question at any other index is unchanged, every
other store field is unchanged, and an out-of-range index leaves the
questions list entirely unchanged. -/
theorem setUserAnswer_frame (s : AssessmentState) (i : ℕ) (a : String) :
    ((setUserAnswer s i a).questions[i]? =
      Option.map (fun q => { q with userAnswer := some a }) s.questions[i]?) ∧
    (∀ j, j ≠ i → (setUserAnswer s i a).questions[j]? = s.questions[j]?) ∧
    (s.questions.length ≤ i → (setUserAnswer s i a).questions = s.questions) ∧
    (setUserAnswer s i a).currentAssessmentId = s.currentAssessmentId ∧
    (setUserAnswer s i a).uploadedFiles = s.uploadedFiles ∧
    (setUserAnswer s i a).permissions = s.permissions ∧
    (setUserAnswer s i a).faceEmbedding = s.faceEmbedding ∧
    (setUserAnswer s i a).currentQuestionIndex = s.currentQuestionIndex ∧
    (setUserAnswer s i a).timeRemaining = s.timeRemaining ∧
    (setUserAnswer s i a).isAssessmentComplete = s.isAssessmentComplete := by
  refine ⟨?_, ?_, ?_, rfl, rfl, rfl, rfl, rfl, rfl, rfl⟩
  · simp [setUserAnswer, List.getElem?_mapIdx]
  · intro j hj
    simp [setUserAnswer, List.getElem?_mapIdx, hj]
  · intro hlen
    show s.questions.mapIdx _ = s.questions
    apply List.ext_getElem?
    intro j
    rw [List.getElem?_mapIdx]
    by_cases hjl : j < s.questions.length
    · have hji : j ≠ i := by omega
      simp [hji]
    · have hnone : s.questions[j]? = none := by
        simp [List.getElem?_eq_none_iff]
        omega
      simp [hnone]

/-- Witness for C9: answering question 0 leaves question 1 untouched,
and an out-of-range index 5 leaves the list untouched. -/
theorem setUserAnswer_frame_witness :
    (setUserAnswer twoQuestionStore 0 "B").questions[1]? =
      twoQuestionStore.questions[1]? ∧
    (setUserAnswer twoQuestionStore 5 "B").questions = twoQuestionStore.questions :=
  ⟨(setUserAnswer_frame twoQuestionStore 0 "B").2.1 1 (by decide),
    (setUserAnswer_frame twoQuestionStore 5 "B").2.2.1 (by decide)⟩

/-- C10: every file kept by the extraction loop of an accepted ZIP comes
from a non-directory entry, its path contains neither node_modules nor
.git, its stored size is the full text length, and its stored content is
the first 500 characters of the text, hence a prefix of the text of
length at most 500. -/
theorem extractFiles_filtered_and_truncated (entries : List ZipEntry)
    (f : UploadedFile) (hf : f ∈ extractFiles entries) :
    jsIncludes f.path "node_modules" = false ∧
    jsIncludes f.path ".git" = false ∧
    ∃ e ∈ entries, e.dir = false ∧ f.name = e.path ∧ f.path = e.path ∧
      f.size = e.text.length ∧ f.content = some (String.mk (e.text.data.take 500)) ∧
      (String.mk (e.text.data.take 500)).length ≤ 500 ∧
      (String.mk (e.text.data.take 500)).data <+: e.text.data := by
  rw [extractFiles, List.mem_filterMap] at hf
  obtain ⟨e, he, hsome⟩ := hf
  by_cases hc : (!e.dir && !(jsIncludes e.path "node_modules") &&
      !(jsIncludes e.path ".git")) = true
  · rw [if_pos hc] at hsome
    obtain rfl :
        (⟨e.path, e.path, e.text.length, some (String.mk (e.text.data.take 500))⟩ :
          UploadedFile) = f :=
      Option.some.inj hsome
    have hb := hc
    simp only [Bool.and_eq_true, Bool.not_eq_true'] at hb
    obtain ⟨⟨hd, hnm⟩, hgit⟩ := hb
    refine ⟨hnm, hgit, e, he, hd, rfl, rfl, rfl, rfl, ?_, ?_⟩
    · show (e.text.data.take 500).length ≤ 500
      rw [List.length_take]
      exact Nat.min_le_left 500 e.text.data.length
    · exact List.take_prefix 500 e.text.data
  · rw [if_neg hc] at hsome
    exact absurd hsome (by simp)

/-- Witness for C10: the source file of the sample archive is kept with
its full 2-character text as preview; the directory and the
node_modules entry contribute nothing. -/
theorem extractFiles_filtered_and_truncated_witness :
    jsIncludes (⟨"a.ts", "a.ts", 2, some "hi"⟩ : UploadedFile).path
      "node_modules" = false ∧
    jsIncludes (⟨"a.ts", "a.ts", 2, some "hi"⟩ : UploadedFile).path
      ".git" = false ∧
    ∃ e ∈ sampleEntries, e.dir = false ∧
      (⟨"a.ts", "a.ts", 2, some "hi"⟩ : UploadedFile).name = e.path ∧
      (⟨"a.ts", "a.ts", 2, some "hi"⟩ : UploadedFile).path = e.path ∧
      (⟨"a.ts", "a.ts", 2, some "hi"⟩ : UploadedFile).size = e.text.length ∧
      (⟨"a.ts", "a.ts", 2, some "hi"⟩ : UploadedFile).content =
        some (String.mk (e.text.data.take 500)) ∧
      (String.mk (e.text.data.take 500)).length ≤ 500 ∧
      (String.mk (e.text.data.take 500)).data <+: e.text.data :=
  extractFiles_filtered_and_truncated sampleEntries
    ⟨"a.ts", "a.ts", 2, some "hi"⟩ (by decide)

end ExpertEval
